import Mathlib

/-!
Shallow embedding of the wadachi-cpu RV32I emulator core
(src/src/{decode.rs, processor.rs, csr.rs, memory.rs}) and proofs about it.

Conventions of the embedding:
* Machine words (`u8`, `u16`, `u32`) are `Nat` together with explicit
  truncation `% 2^w` wherever the Rust code performs wrapping arithmetic
  (`wrapping_add`, `wrapping_sub`, or plain `+` on `u32`/`i32`, which the
  spec declares to be modulo `2^32`).
* Rust indexing into a `Vec<u8>` out of bounds aborts the process; memory
  accesses therefore return `Option`, `none` standing for the abort.
* A Rust `panic!` (and a shift by 32 or more bits, which Rust defines as an
  arithmetic-overflow error that aborts when overflow checks are enabled)
  is modelled by a dedicated `fatal` result constructor.
* Signed (`i32`) reinterpretation goes through `toSigned` below.
-/

/-- Truncation to a 32-bit word, i.e. the `u32` wrap-around of the source. -/
def w32 (x : Nat) : Nat := x % 4294967296

/-- Reinterpret a 32-bit word as an `i32` (two's complement). -/
def toSigned (x : Nat) : Int :=
  if w32 x < 2147483648 then (w32 x : Int) else (w32 x : Int) - 4294967296

/-- The bit-range extraction `x.get_bits(lo..hi)` of the `bit_field` crate
used throughout `decode.rs` and `csr.rs` (half-open range, LSB first). -/
def get_bits (x lo hi : Nat) : Nat := (x >>> lo) % 2 ^ (hi - lo)

/-- Bitwise complement of a `u32`, the Rust `!value`. -/
def not32 (x : Nat) : Nat := w32 x ^^^ 4294967295

/-- Arithmetic right shift of a 32-bit word by `k` bits, the Rust
`(x as i32) >> k` (floor division of the signed value by `2^k`). -/
def sra32 (x k : Nat) : Nat := (Int.fdiv (toSigned x) (2 ^ k) % 4294967296).toNat

/-- Modelled from the spec: the trap taxonomy of section 7.  The repository
declares `pub mod exception` in lib.rs but `src/src/exception.rs` itself is
not in the tree; every variant below is named at its use sites in
`decode.rs`, `processor.rs` and `csr.rs`. -/
inductive Exception where
  | illegalInstruction
  | instructionAddressMisaligned
  | instructionAccessFault
  | loadAccessFault
  | storeAccessFault
deriving DecidableEq, Repr

/-- Privilege level (`Mode` in processor.rs). -/
inductive Mode where
  | user
  | supervisor
  | machine
deriving DecidableEq, Repr

/-- The numeric discriminant of `Mode` (`User = 0b00`, `Supervisor = 0b01`,
`Machine = 0b11`), used by the `mode as usize` cast in csr.rs. -/
def mode_code : Mode → Nat
  | .user => 0
  | .supervisor => 1
  | .machine => 3

/-- The CSR file (csr.rs): 4096 32-bit registers, addressed by `Nat`. -/
structure Csr where
  registers : Nat → Nat

/-- `Csr::new` — all registers zero. -/
def Csr.new : Csr := ⟨fun _ => 0⟩

/-- `Csr::read`: address validity check, then privilege check
(`mode as usize < addr.get_bits(8..10)` fails), then the register value. -/
def Csr.read (c : Csr) (addr : Nat) (mo : Mode) : Except Exception Nat :=
  if 4096 ≤ addr then .error .illegalInstruction
  else if mode_code mo < get_bits addr 8 10 then .error .illegalInstruction
  else .ok (c.registers addr)

/-- `Csr::write`: the same two checks as `Csr::read`; a write to a read-only
address (`addr.get_bits(10..12) == 0b11`) is ignored, otherwise the value is
stored. -/
def Csr.write (c : Csr) (addr v : Nat) (mo : Mode) : Except Exception Csr :=
  if 4096 ≤ addr then .error .illegalInstruction
  else if mode_code mo < get_bits addr 8 10 then .error .illegalInstruction
  else if get_bits addr 10 12 = 3 then .ok c
  else .ok ⟨fun j => if j = addr then v else c.registers j⟩

/-- `VectorMemory::read_lb`: one byte; `none` models the out-of-bounds
panic of Rust vector indexing. -/
def read_lb (m : List Nat) (a : Nat) : Option Nat := m[a]?

/-- `VectorMemory::read_lh` (little-endian halfword). -/
def read_lh (m : List Nat) (a : Nat) : Option Nat :=
  match m[a]?, m[a + 1]? with
  | some b0, some b1 => some (b0 ||| b1 <<< 8)
  | _, _ => none

/-- `VectorMemory::read_lw` (little-endian word). -/
def read_lw (m : List Nat) (a : Nat) : Option Nat :=
  match m[a]?, m[a + 1]?, m[a + 2]?, m[a + 3]? with
  | some b0, some b1, some b2, some b3 =>
      some (b0 ||| b1 <<< 8 ||| b2 <<< 16 ||| b3 <<< 24)
  | _, _, _, _ => none

/-- `VectorMemory::read_bw` (big-endian word, used for instruction fetch). -/
def read_bw (m : List Nat) (a : Nat) : Option Nat :=
  match m[a]?, m[a + 1]?, m[a + 2]?, m[a + 3]? with
  | some b0, some b1, some b2, some b3 =>
      some (b0 <<< 24 ||| b1 <<< 16 ||| b2 <<< 8 ||| b3)
  | _, _, _, _ => none

/-- `VectorMemory::write_lb`: store one byte; `none` models the
out-of-bounds panic. -/
def write_lb (m : List Nat) (a v : Nat) : Option (List Nat) :=
  if a < m.length then some (m.set a v) else none

/-- `VectorMemory::write_lh`: the `val as u8` casts become `% 256`. -/
def write_lh (m : List Nat) (a v : Nat) : Option (List Nat) :=
  (write_lb m a (v % 256)).bind fun m1 => write_lb m1 (a + 1) (v >>> 8 % 256)

/-- `VectorMemory::write_lw` (little-endian word store). -/
def write_lw (m : List Nat) (a v : Nat) : Option (List Nat) :=
  (write_lb m a (v % 256)).bind fun m1 =>
    (write_lb m1 (a + 1) (v >>> 8 % 256)).bind fun m2 =>
      (write_lb m2 (a + 2) (v >>> 16 % 256)).bind fun m3 =>
        write_lb m3 (a + 3) (v >>> 24 % 256)

/-- `VectorMemory::write_bw` (big-endian word store). -/
def write_bw (m : List Nat) (a v : Nat) : Option (List Nat) :=
  (write_lb m a (v >>> 24 % 256)).bind fun m1 =>
    (write_lb m1 (a + 1) (v >>> 16 % 256)).bind fun m2 =>
      (write_lb m2 (a + 2) (v >>> 8 % 256)).bind fun m3 =>
        write_lb m3 (a + 3) (v % 256)

/-- The `Memory` trait method `read_byte` of `VectorMemory`. -/
def read_byte (m : List Nat) (a : Nat) : Option Nat := read_lb m a

/-- The `Memory` trait method `read_halfword` of `VectorMemory`. -/
def read_halfword (m : List Nat) (a : Nat) : Option Nat := read_lh m a

/-- The `Memory` trait method `read_word` of `VectorMemory`. -/
def read_word (m : List Nat) (a : Nat) : Option Nat := read_lw m a

/-- The `Memory` trait method `read_inst` of `VectorMemory` (big-endian). -/
def read_inst (m : List Nat) (a : Nat) : Option Nat := read_bw m a

/-- The `Memory` trait method `write_byte` of `VectorMemory`. -/
def write_byte (m : List Nat) (a v : Nat) : Option (List Nat) := write_lb m a v

/-- The `Memory` trait method `write_halfword` of `VectorMemory`. -/
def write_halfword (m : List Nat) (a v : Nat) : Option (List Nat) := write_lh m a v

/-- The `Memory` trait method `write_word` of `VectorMemory`. -/
def write_word (m : List Nat) (a v : Nat) : Option (List Nat) := write_lw m a v

/-- The `Memory` trait method `write_inst` of `VectorMemory` (big-endian). -/
def write_inst (m : List Nat) (a v : Nat) : Option (List Nat) := write_bw m a v

/-- Operand record of R-type instructions (decode.rs). -/
structure RType where
  rd : Nat
  rs1 : Nat
  rs2 : Nat
deriving DecidableEq, Repr

/-- Operand record of I-type instructions; `imm` is the raw 12-bit field. -/
structure IType where
  rd : Nat
  rs1 : Nat
  imm : Nat
deriving DecidableEq, Repr

/-- Operand record of S-type instructions. -/
structure SType where
  rs1 : Nat
  rs2 : Nat
  imm : Nat
deriving DecidableEq, Repr

/-- Operand record of B-type instructions; `imm` is the 13-bit branch
offset (low bit zero by construction). -/
structure BType where
  rs1 : Nat
  rs2 : Nat
  imm : Nat
deriving DecidableEq, Repr

/-- Operand record of U-type instructions; `imm` is `inst[31:12] << 12`. -/
structure UType where
  rd : Nat
  imm : Nat
deriving DecidableEq, Repr

/-- Operand record of J-type instructions; `imm` is the 21-bit jump offset
(low bit zero by construction). -/
structure JType where
  rd : Nat
  imm : Nat
deriving DecidableEq, Repr

/-- The decoded-instruction sum type of decode.rs. -/
inductive Instruction where
  | add (a : RType)
  | sub (a : RType)
  | sll (a : RType)
  | slt (a : RType)
  | sltu (a : RType)
  | xor (a : RType)
  | srl (a : RType)
  | sra (a : RType)
  | or (a : RType)
  | and (a : RType)
  | jalr (a : IType)
  | addi (a : IType)
  | slli (a : IType)
  | slti (a : IType)
  | sltiu (a : IType)
  | xori (a : IType)
  | srli (a : IType)
  | srai (a : IType)
  | ori (a : IType)
  | andi (a : IType)
  | lb (a : IType)
  | lh (a : IType)
  | lw (a : IType)
  | lbu (a : IType)
  | lhu (a : IType)
  | csrrw (a : IType)
  | csrrs (a : IType)
  | csrrc (a : IType)
  | csrrwi (a : IType)
  | csrrsi (a : IType)
  | csrrci (a : IType)
  | sb (a : SType)
  | sh (a : SType)
  | sw (a : SType)
  | beq (a : BType)
  | bne (a : BType)
  | blt (a : BType)
  | bge (a : BType)
  | bltu (a : BType)
  | bgeu (a : BType)
  | jal (a : JType)
  | lui (a : UType)
  | auipc (a : UType)
deriving DecidableEq, Repr

/-- Result of `decode`: a decoded instruction, a trap, or a Rust panic
(the two `panic!("Invalid instruction")` arms of decode.rs). -/
inductive DecodeResult where
  | ok (i : Instruction)
  | trap (e : Exception)
  | fatal
deriving DecidableEq, Repr

/-- `RType::new` - field extraction. -/
def RType.new (w : Nat) : RType :=
  ⟨get_bits w 7 12, get_bits w 15 20, get_bits w 20 25⟩

/-- `IType::new` - field extraction; `imm = inst[31:20]`. -/
def IType.new (w : Nat) : IType :=
  ⟨get_bits w 7 12, get_bits w 15 20, get_bits w 20 32⟩

/-- `SType::new` - `imm = inst[11:7] + (inst[31:25] << 5)`. -/
def SType.new (w : Nat) : SType :=
  ⟨get_bits w 15 20, get_bits w 20 25, get_bits w 7 12 + (get_bits w 25 32 <<< 5)⟩

/-- `BType::new` - the 13-bit branch offset stitched as in decode.rs. -/
def BType.new (w : Nat) : BType :=
  ⟨get_bits w 15 20, get_bits w 20 25,
    (get_bits w 8 12 + (get_bits w 25 31 <<< 4) + (get_bits w 7 8 <<< 10) +
      (get_bits w 31 32 <<< 11)) <<< 1⟩

/-- `UType::new` - `imm = inst[31:12] << 12`. -/
def UType.new (w : Nat) : UType :=
  ⟨get_bits w 7 12, get_bits w 12 32 <<< 12⟩

/-- `JType::new` - the 21-bit jump offset stitched as in decode.rs. -/
def JType.new (w : Nat) : JType :=
  ⟨get_bits w 7 12,
    (get_bits w 21 31 + (get_bits w 20 21 <<< 10) + (get_bits w 12 20 <<< 11) +
      (get_bits w 31 32 <<< 19)) <<< 1⟩

/-- The decoder of decode.rs, a nested dispatch on opcode, funct3 and
funct7.  The two `panic!("Invalid instruction")` arms (opcode `0110011`,
funct3 `000` or `101`, funct7 outside `{0000000, 0100000}`) are `fatal`;
every other unrecognized combination is an `IllegalInstruction` trap. -/
def decode (w : Nat) : DecodeResult :=
  if get_bits w 0 7 = 51 then
    if get_bits w 12 15 = 0 then
      if get_bits w 25 32 = 0 then .ok (.add (RType.new w))
      else if get_bits w 25 32 = 32 then .ok (.sub (RType.new w))
      else .fatal
    else if get_bits w 12 15 = 1 then .ok (.sll (RType.new w))
    else if get_bits w 12 15 = 2 then .ok (.slt (RType.new w))
    else if get_bits w 12 15 = 3 then .ok (.sltu (RType.new w))
    else if get_bits w 12 15 = 4 then .ok (.xor (RType.new w))
    else if get_bits w 12 15 = 5 then
      if get_bits w 25 32 = 0 then .ok (.srl (RType.new w))
      else if get_bits w 25 32 = 32 then .ok (.sra (RType.new w))
      else .fatal
    else if get_bits w 12 15 = 6 then .ok (.or (RType.new w))
    else if get_bits w 12 15 = 7 then .ok (.and (RType.new w))
    else .trap .illegalInstruction
  else if get_bits w 0 7 = 103 then
    if get_bits w 20 32 % 4 ≠ 0 then .trap .instructionAddressMisaligned
    else .ok (.jalr (IType.new w))
  else if get_bits w 0 7 = 19 then
    if get_bits w 12 15 = 0 then .ok (.addi (IType.new w))
    else if get_bits w 12 15 = 1 then .ok (.slli (IType.new w))
    else if get_bits w 12 15 = 2 then .ok (.slti (IType.new w))
    else if get_bits w 12 15 = 3 then .ok (.sltiu (IType.new w))
    else if get_bits w 12 15 = 4 then .ok (.xori (IType.new w))
    else if get_bits w 12 15 = 5 then
      if get_bits w 25 32 = 0 then .ok (.srli (IType.new w))
      else if get_bits w 25 32 = 32 then .ok (.srai (IType.new w))
      else .trap .illegalInstruction
    else if get_bits w 12 15 = 6 then .ok (.ori (IType.new w))
    else if get_bits w 12 15 = 7 then .ok (.andi (IType.new w))
    else .trap .illegalInstruction
  else if get_bits w 0 7 = 3 then
    if get_bits w 12 15 = 0 then .ok (.lb (IType.new w))
    else if get_bits w 12 15 = 1 then .ok (.lh (IType.new w))
    else if get_bits w 12 15 = 2 then .ok (.lw (IType.new w))
    else if get_bits w 12 15 = 4 then .ok (.lbu (IType.new w))
    else if get_bits w 12 15 = 5 then .ok (.lhu (IType.new w))
    else .trap .illegalInstruction
  else if get_bits w 0 7 = 115 then
    if get_bits w 12 15 = 1 then .ok (.csrrw (IType.new w))
    else if get_bits w 12 15 = 2 then .ok (.csrrs (IType.new w))
    else if get_bits w 12 15 = 3 then .ok (.csrrc (IType.new w))
    else if get_bits w 12 15 = 5 then .ok (.csrrwi (IType.new w))
    else if get_bits w 12 15 = 6 then .ok (.csrrsi (IType.new w))
    else if get_bits w 12 15 = 7 then .ok (.csrrci (IType.new w))
    else .trap .illegalInstruction
  else if get_bits w 0 7 = 35 then
    if get_bits w 12 15 = 0 then .ok (.sb (SType.new w))
    else if get_bits w 12 15 = 1 then .ok (.sh (SType.new w))
    else if get_bits w 12 15 = 2 then .ok (.sw (SType.new w))
    else .trap .illegalInstruction
  else if get_bits w 0 7 = 99 then
    if get_bits w 12 15 = 0 then .ok (.beq (BType.new w))
    else if get_bits w 12 15 = 1 then .ok (.bne (BType.new w))
    else if get_bits w 12 15 = 4 then .ok (.blt (BType.new w))
    else if get_bits w 12 15 = 5 then .ok (.bge (BType.new w))
    else if get_bits w 12 15 = 6 then .ok (.bltu (BType.new w))
    else if get_bits w 12 15 = 7 then .ok (.bgeu (BType.new w))
    else .trap .illegalInstruction
  else if get_bits w 0 7 = 111 then .ok (.jal (JType.new w))
  else if get_bits w 0 7 = 55 then .ok (.lui (UType.new w))
  else if get_bits w 0 7 = 23 then .ok (.auipc (UType.new w))
  else .trap .illegalInstruction

/-- `Processor::sign_extend` (12-bit sign extension of a `u16` value; the
sign bit tested is bit 11, the extension ORs in `0xfffff000`). -/
def sign_extend (v : Nat) : Nat :=
  if v &&& 2048 ≠ 0 then v ||| 4294963200 else v

/-- `Processor::sign_extend_20bit`, used for the JAL offset: the test mask
is `0xfff80000` (bits 19 and up) and the extension ORs in `0xfff00000`.
The `i32` result is kept as its 32-bit two's-complement bit pattern. -/
def sign_extend_20bit (v : Nat) : Nat :=
  if v &&& 4294443008 ≠ 0 then v ||| 4293918720 else v

/-- The processor state (`Processor` in processor.rs) over a
`VectorMemory` backing store. -/
structure Processor where
  pc : Nat
  regs : Nat → Nat
  csr : Csr
  mem : List Nat
  mode : Mode
  has_jumped : Bool

/-- `Processor::new` - zeroed registers, `pc = 0`, machine mode. -/
def Processor.new (memory : List Nat) : Processor :=
  ⟨0, fun _ => 0, Csr.new, memory, .machine, false⟩

/-- `Processor::read_reg` - register 0 reads as zero. -/
def read_reg (p : Processor) (idx : Nat) : Nat :=
  if idx = 0 then 0 else p.regs idx

/-- `Processor::write_reg` - a write to register 0 is discarded. -/
def write_reg (p : Processor) (idx v : Nat) : Processor :=
  if idx ≠ 0 then { p with regs := fun j => if j = idx then v else p.regs j } else p

/-- `Processor::set_pc` - panics (`none`) unless the address is 4-aligned. -/
def set_pc (p : Processor) (pc : Nat) : Option Processor :=
  if pc % 4 ≠ 0 then none else some { p with pc := pc }

/-- `VectorMemory` part of `Processor::load`: write each program word
big-endian at `address + 4 * index`; `none` is an out-of-bounds panic. -/
def load_words (m : List Nat) (address : Nat) : List Nat → Option (List Nat)
  | [] => some m
  | word :: rest =>
      (write_inst m address word).bind fun m1 => load_words m1 (address + 4) rest

/-- `Processor::load` - panics (`none`) unless `address` is 4-aligned,
then stores the program words via `write_inst`. -/
def load (p : Processor) (address : Nat) (program : List Nat) : Option Processor :=
  if address % 4 ≠ 0 then none
  else (load_words p.mem address program).map fun m => { p with mem := m }

/-- Result of executing one instruction (or one `tick`): the new processor
state, a trap together with the state as already mutated when the trap was
returned, or a Rust panic/abort. -/
inductive Outcome where
  | ok (p : Processor)
  | trap (p : Processor) (e : Exception)
  | fatal

/-- `Processor::inst_add` (`wrapping_add`). -/
def inst_add (p : Processor) (a : RType) : Processor :=
  write_reg p a.rd (w32 (read_reg p a.rs1 + read_reg p a.rs2))

/-- `Processor::inst_sub` (`wrapping_sub`). -/
def inst_sub (p : Processor) (a : RType) : Processor :=
  write_reg p a.rd (w32 (read_reg p a.rs1 + (4294967296 - w32 (read_reg p a.rs2))))

/-- `Processor::inst_sll` - `lv << rv` with the full (unmasked) `rv`; a
shift amount of 32 or more is an arithmetic overflow in Rust (`fatal`). -/
def inst_sll (p : Processor) (a : RType) : Outcome :=
  if 32 ≤ read_reg p a.rs2 then .fatal
  else .ok (write_reg p a.rd (w32 (read_reg p a.rs1 <<< read_reg p a.rs2)))

/-- `Processor::inst_slt` (signed compare). -/
def inst_slt (p : Processor) (a : RType) : Processor :=
  write_reg p a.rd
    (if toSigned (read_reg p a.rs1) < toSigned (read_reg p a.rs2) then 1 else 0)

/-- `Processor::inst_sltu` (unsigned compare). -/
def inst_sltu (p : Processor) (a : RType) : Processor :=
  write_reg p a.rd (if read_reg p a.rs1 < read_reg p a.rs2 then 1 else 0)

/-- `Processor::inst_xor`. -/
def inst_xor (p : Processor) (a : RType) : Processor :=
  write_reg p a.rd (read_reg p a.rs1 ^^^ read_reg p a.rs2)

/-- `Processor::inst_srl` - `lv >> rv` with the full (unmasked) `rv`. -/
def inst_srl (p : Processor) (a : RType) : Outcome :=
  if 32 ≤ read_reg p a.rs2 then .fatal
  else .ok (write_reg p a.rd (read_reg p a.rs1 >>> read_reg p a.rs2))

/-- `Processor::inst_sra` - `(lv as i32) >> rv` with the full (unmasked)
`rv`. -/
def inst_sra (p : Processor) (a : RType) : Outcome :=
  if 32 ≤ read_reg p a.rs2 then .fatal
  else .ok (write_reg p a.rd (sra32 (read_reg p a.rs1) (read_reg p a.rs2)))

/-- `Processor::inst_or`. -/
def inst_or (p : Processor) (a : RType) : Processor :=
  write_reg p a.rd (read_reg p a.rs1 ||| read_reg p a.rs2)

/-- `Processor::inst_and`. -/
def inst_and (p : Processor) (a : RType) : Processor :=
  write_reg p a.rd (read_reg p a.rs1 &&& read_reg p a.rs2)

/-- `Processor::inst_jalr`: target is `(rs1 + sign_extend(imm)) & !1`; on a
misaligned target the trap is returned before any state change. -/
def inst_jalr (p : Processor) (a : IType) : Outcome :=
  if (w32 (read_reg p a.rs1 + sign_extend a.imm) &&& 4294967294) % 4 ≠ 0 then
    .trap p .instructionAddressMisaligned
  else
    .ok { write_reg p a.rd (w32 (p.pc + 4)) with
            pc := w32 (read_reg p a.rs1 + sign_extend a.imm) &&& 4294967294,
            has_jumped := true }

/-- `Processor::inst_addi` (two's-complement add, wraps modulo `2^32`). -/
def inst_addi (p : Processor) (a : IType) : Processor :=
  write_reg p a.rd (w32 (read_reg p a.rs1 + sign_extend a.imm))

/-- `Processor::inst_slli` - shift amount `imm & 0x1f`. -/
def inst_slli (p : Processor) (a : IType) : Processor :=
  write_reg p a.rd (w32 (read_reg p a.rs1 <<< (a.imm &&& 31)))

/-- `Processor::inst_slti`. -/
def inst_slti (p : Processor) (a : IType) : Processor :=
  write_reg p a.rd
    (if toSigned (read_reg p a.rs1) < toSigned (sign_extend a.imm) then 1 else 0)

/-- `Processor::inst_sltiu`. -/
def inst_sltiu (p : Processor) (a : IType) : Processor :=
  write_reg p a.rd (if read_reg p a.rs1 < sign_extend a.imm then 1 else 0)

/-- `Processor::inst_xori`. -/
def inst_xori (p : Processor) (a : IType) : Processor :=
  write_reg p a.rd (read_reg p a.rs1 ^^^ sign_extend a.imm)

/-- `Processor::inst_srli` - shift amount `imm & 0x1f`. -/
def inst_srli (p : Processor) (a : IType) : Processor :=
  write_reg p a.rd (read_reg p a.rs1 >>> (a.imm &&& 31))

/-- `Processor::inst_srai` - arithmetic shift by `imm & 0x1f`. -/
def inst_srai (p : Processor) (a : IType) : Processor :=
  write_reg p a.rd (sra32 (read_reg p a.rs1) (a.imm &&& 31))

/-- `Processor::inst_ori`. -/
def inst_ori (p : Processor) (a : IType) : Processor :=
  write_reg p a.rd (read_reg p a.rs1 ||| sign_extend a.imm)

/-- `Processor::inst_andi`. -/
def inst_andi (p : Processor) (a : IType) : Processor :=
  write_reg p a.rd (read_reg p a.rs1 &&& sign_extend a.imm)

/-- Sign extension of a byte to 32 bits, the Rust `(b as i8) as u32`. -/
def sext8 (b : Nat) : Nat := if b &&& 128 ≠ 0 then b ||| 4294967040 else b

/-- Sign extension of a halfword to 32 bits, the Rust `(h as i16) as u32`. -/
def sext16 (h : Nat) : Nat := if h &&& 32768 ≠ 0 then h ||| 4294901760 else h

/-- `Processor::inst_lb`. -/
def inst_lb (p : Processor) (a : IType) : Outcome :=
  match read_byte p.mem (w32 (read_reg p a.rs1 + sign_extend a.imm)) with
  | none => .fatal
  | some b => .ok (write_reg p a.rd (sext8 b))

/-- `Processor::inst_lh`. -/
def inst_lh (p : Processor) (a : IType) : Outcome :=
  match read_halfword p.mem (w32 (read_reg p a.rs1 + sign_extend a.imm)) with
  | none => .fatal
  | some h => .ok (write_reg p a.rd (sext16 h))

/-- `Processor::inst_lw`. -/
def inst_lw (p : Processor) (a : IType) : Outcome :=
  match read_word p.mem (w32 (read_reg p a.rs1 + sign_extend a.imm)) with
  | none => .fatal
  | some v => .ok (write_reg p a.rd v)

/-- `Processor::inst_lbu`. -/
def inst_lbu (p : Processor) (a : IType) : Outcome :=
  match read_byte p.mem (w32 (read_reg p a.rs1 + sign_extend a.imm)) with
  | none => .fatal
  | some b => .ok (write_reg p a.rd b)

/-- `Processor::inst_lhu`. -/
def inst_lhu (p : Processor) (a : IType) : Outcome :=
  match read_halfword p.mem (w32 (read_reg p a.rs1 + sign_extend a.imm)) with
  | none => .fatal
  | some h => .ok (write_reg p a.rd h)

/-- `Processor::inst_csrrw`: read CSR (propagating a trap), write the old
value to `rd`, then write `rs1` to the CSR (propagating a trap). -/
def inst_csrrw (p : Processor) (a : IType) : Outcome :=
  match Csr.read p.csr a.imm p.mode with
  | .error e => .trap p e
  | .ok old =>
      match Csr.write (write_reg p a.rd old).csr a.imm
          (read_reg (write_reg p a.rd old) a.rs1) (write_reg p a.rd old).mode with
      | .error e => .trap (write_reg p a.rd old) e
      | .ok c2 => .ok { write_reg p a.rd old with csr := c2 }

/-- `Processor::inst_csrrs` (`old | rs1`). -/
def inst_csrrs (p : Processor) (a : IType) : Outcome :=
  match Csr.read p.csr a.imm p.mode with
  | .error e => .trap p e
  | .ok old =>
      match Csr.write (write_reg p a.rd old).csr a.imm
          (old ||| read_reg (write_reg p a.rd old) a.rs1) (write_reg p a.rd old).mode with
      | .error e => .trap (write_reg p a.rd old) e
      | .ok c2 => .ok { write_reg p a.rd old with csr := c2 }

/-- `Processor::inst_csrrc` (`old & !rs1`). -/
def inst_csrrc (p : Processor) (a : IType) : Outcome :=
  match Csr.read p.csr a.imm p.mode with
  | .error e => .trap p e
  | .ok old =>
      match Csr.write (write_reg p a.rd old).csr a.imm
          (old &&& not32 (read_reg (write_reg p a.rd old) a.rs1))
          (write_reg p a.rd old).mode with
      | .error e => .trap (write_reg p a.rd old) e
      | .ok c2 => .ok { write_reg p a.rd old with csr := c2 }

/-- `Processor::inst_csrrwi` - the `rs1` field itself is the immediate. -/
def inst_csrrwi (p : Processor) (a : IType) : Outcome :=
  match Csr.read p.csr a.imm p.mode with
  | .error e => .trap p e
  | .ok old =>
      match Csr.write (write_reg p a.rd old).csr a.imm a.rs1
          (write_reg p a.rd old).mode with
      | .error e => .trap (write_reg p a.rd old) e
      | .ok c2 => .ok { write_reg p a.rd old with csr := c2 }

/-- `Processor::inst_csrrsi`. -/
def inst_csrrsi (p : Processor) (a : IType) : Outcome :=
  match Csr.read p.csr a.imm p.mode with
  | .error e => .trap p e
  | .ok old =>
      match Csr.write (write_reg p a.rd old).csr a.imm (old ||| a.rs1)
          (write_reg p a.rd old).mode with
      | .error e => .trap (write_reg p a.rd old) e
      | .ok c2 => .ok { write_reg p a.rd old with csr := c2 }

/-- `Processor::inst_csrrci`. -/
def inst_csrrci (p : Processor) (a : IType) : Outcome :=
  match Csr.read p.csr a.imm p.mode with
  | .error e => .trap p e
  | .ok old =>
      match Csr.write (write_reg p a.rd old).csr a.imm (old &&& not32 a.rs1)
          (write_reg p a.rd old).mode with
      | .error e => .trap (write_reg p a.rd old) e
      | .ok c2 => .ok { write_reg p a.rd old with csr := c2 }

/-- `Processor::inst_sb` - store the low byte of `rs2`. -/
def inst_sb (p : Processor) (a : SType) : Outcome :=
  match write_byte p.mem (w32 (read_reg p a.rs1 + sign_extend a.imm))
      (read_reg p a.rs2 &&& 255) with
  | none => .fatal
  | some m => .ok { p with mem := m }

/-- `Processor::inst_sh` - store the low halfword of `rs2`. -/
def inst_sh (p : Processor) (a : SType) : Outcome :=
  match write_halfword p.mem (w32 (read_reg p a.rs1 + sign_extend a.imm))
      (read_reg p a.rs2 &&& 65535) with
  | none => .fatal
  | some m => .ok { p with mem := m }

/-- `Processor::inst_sw` - store `rs2`. -/
def inst_sw (p : Processor) (a : SType) : Outcome :=
  match write_word p.mem (w32 (read_reg p a.rs1 + sign_extend a.imm))
      (read_reg p a.rs2) with
  | none => .fatal
  | some m => .ok { p with mem := m }

/-- `Processor::branch_inner`: on a true condition, a non-4-aligned raw
offset traps; otherwise the sign-extended offset is added to `pc` (wrap)
and the jumped flag is set.  A false condition does nothing. -/
def branch_inner (p : Processor) (condition : Prop) [Decidable condition]
    (offset : Nat) : Outcome :=
  if condition then
    if offset % 4 ≠ 0 then .trap p .instructionAddressMisaligned
    else .ok { p with pc := w32 (p.pc + sign_extend offset), has_jumped := true }
  else .ok p

/-- `Processor::inst_beq`. -/
def inst_beq (p : Processor) (a : BType) : Outcome :=
  branch_inner p (read_reg p a.rs1 = read_reg p a.rs2) a.imm

/-- `Processor::inst_bne`. -/
def inst_bne (p : Processor) (a : BType) : Outcome :=
  branch_inner p (read_reg p a.rs1 ≠ read_reg p a.rs2) a.imm

/-- `Processor::inst_blt` (signed). -/
def inst_blt (p : Processor) (a : BType) : Outcome :=
  branch_inner p (toSigned (read_reg p a.rs1) < toSigned (read_reg p a.rs2)) a.imm

/-- `Processor::inst_bge` (signed). -/
def inst_bge (p : Processor) (a : BType) : Outcome :=
  branch_inner p (toSigned (read_reg p a.rs2) ≤ toSigned (read_reg p a.rs1)) a.imm

/-- `Processor::inst_bltu` (unsigned). -/
def inst_bltu (p : Processor) (a : BType) : Outcome :=
  branch_inner p (read_reg p a.rs1 < read_reg p a.rs2) a.imm

/-- `Processor::inst_bgeu` (unsigned). -/
def inst_bgeu (p : Processor) (a : BType) : Outcome :=
  branch_inner p (read_reg p a.rs2 ≤ read_reg p a.rs1) a.imm

/-- `Processor::inst_auipc`: note that the source shifts the U-immediate
left by 12 a second time (decode already shifted once), updates `pc` via
`set_pc` (which panics on a misaligned result), and then writes the target
also into `rd`. -/
def inst_auipc (p : Processor) (a : UType) : Outcome :=
  if w32 (p.pc + w32 (a.imm <<< 12)) % 4 ≠ 0 then .fatal
  else .ok (write_reg { p with pc := w32 (p.pc + w32 (a.imm <<< 12)) } a.rd
              (w32 (p.pc + w32 (a.imm <<< 12))))

/-- `Processor::inst_lui`: the source shifts the already-shifted
U-immediate left by 12 again (wrapping). -/
def inst_lui (p : Processor) (a : UType) : Processor :=
  write_reg p a.rd (w32 (a.imm <<< 12))

/-- `Processor::inst_jal`: `pc + 4` is written to `rd` *before* the
alignment check on the target; the target adds the
`sign_extend_20bit`-extended offset with wrap-around. -/
def inst_jal (p : Processor) (a : JType) : Outcome :=
  if w32 ((write_reg p a.rd (w32 (p.pc + 4))).pc + sign_extend_20bit a.imm) % 4 ≠ 0 then
    .trap (write_reg p a.rd (w32 (p.pc + 4))) .instructionAddressMisaligned
  else
    .ok { write_reg p a.rd (w32 (p.pc + 4)) with
            pc := w32 ((write_reg p a.rd (w32 (p.pc + 4))).pc + sign_extend_20bit a.imm),
            has_jumped := true }

/-- Dispatch of `Processor::tick`'s match over the decoded instruction. -/
def exec (i : Instruction) (p : Processor) : Outcome :=
  match i with
  | .add a => .ok (inst_add p a)
  | .sub a => .ok (inst_sub p a)
  | .sll a => inst_sll p a
  | .slt a => .ok (inst_slt p a)
  | .sltu a => .ok (inst_sltu p a)
  | .xor a => .ok (inst_xor p a)
  | .srl a => inst_srl p a
  | .sra a => inst_sra p a
  | .or a => .ok (inst_or p a)
  | .and a => .ok (inst_and p a)
  | .jalr a => inst_jalr p a
  | .addi a => .ok (inst_addi p a)
  | .slli a => .ok (inst_slli p a)
  | .slti a => .ok (inst_slti p a)
  | .sltiu a => .ok (inst_sltiu p a)
  | .xori a => .ok (inst_xori p a)
  | .srli a => .ok (inst_srli p a)
  | .srai a => .ok (inst_srai p a)
  | .ori a => .ok (inst_ori p a)
  | .andi a => .ok (inst_andi p a)
  | .lb a => inst_lb p a
  | .lh a => inst_lh p a
  | .lw a => inst_lw p a
  | .lbu a => inst_lbu p a
  | .lhu a => inst_lhu p a
  | .csrrw a => inst_csrrw p a
  | .csrrs a => inst_csrrs p a
  | .csrrc a => inst_csrrc p a
  | .csrrwi a => inst_csrrwi p a
  | .csrrsi a => inst_csrrsi p a
  | .csrrci a => inst_csrrci p a
  | .sb a => inst_sb p a
  | .sh a => inst_sh p a
  | .sw a => inst_sw p a
  | .beq a => inst_beq p a
  | .bne a => inst_bne p a
  | .blt a => inst_blt p a
  | .bge a => inst_bge p a
  | .bltu a => inst_bltu p a
  | .bgeu a => inst_bgeu p a
  | .jal a => inst_jal p a
  | .lui a => .ok (inst_lui p a)
  | .auipc a => inst_auipc p a

/-- The end-of-tick bookkeeping of `Processor::tick`: if no jump occurred
the pc advances by 4 (wrapping); the jumped flag is cleared. -/
def post_tick (q : Processor) : Processor :=
  if q.has_jumped then { q with has_jumped := false }
  else { q with pc := w32 (q.pc + 4), has_jumped := false }

/-- `Processor::tick`: the fetch-bound check, big-endian instruction fetch,
decode, execute, and the conditional `pc += 4`. -/
def tick (p : Processor) : Outcome :=
  if w32 (p.pc + 4) > p.mem.length % 4294967296 then .trap p .instructionAccessFault
  else
    match read_inst p.mem p.pc with
    | none => .fatal
    | some w =>
      match decode w with
      | .trap e => .trap p e
      | .fatal => .fatal
      | .ok i =>
        match exec i p with
        | .fatal => .fatal
        | .trap q e => .trap q e
        | .ok q => .ok (post_tick q)

/-- The processor states reachable from `Processor::new` by `set_pc`,
`load` and `tick` (a trapping tick leaves its mutated state inspectable). -/
inductive Reach : Processor → Prop where
  | init : ∀ memory, Reach (Processor.new memory)
  | step_set_pc : ∀ p pc q, Reach p → set_pc p pc = some q → Reach q
  | step_load : ∀ p a prog q, Reach p → load p a prog = some q → Reach q
  | step_tick_ok : ∀ p q, Reach p → tick p = .ok q → Reach q
  | step_tick_trap : ∀ p q e, Reach p → tick p = .trap q e → Reach q

/-- Program counter of an outcome's state (`none` for a panic). -/
def pc_of : Outcome → Option Nat
  | .ok p => some p.pc
  | .trap p _ => some p.pc
  | .fatal => none

/-- A register read from an outcome's state (`none` for a panic). -/
def reg_of (o : Outcome) (idx : Nat) : Option Nat :=
  match o with
  | .ok p => some (read_reg p idx)
  | .trap p _ => some (read_reg p idx)
  | .fatal => none

/-- The trap carried by an outcome, if any. -/
def trap_of : Outcome → Option Exception
  | .ok _ => none
  | .trap _ e => some e
  | .fatal => none

/-- Whether an outcome is a successful step. -/
def is_ok : Outcome → Bool
  | .ok _ => true
  | _ => false

/-- The spec's `sign_extend_13`: the 13-bit branch offset is sign-extended
with bit 12 as the sign bit ("the highest bit is the sign bit, applied at
use time"). -/
def sign_extend_13_spec (v : Nat) : Nat :=
  if v &&& 4096 ≠ 0 then v ||| 4294959104 else v

/-- The spec's `sign_extend_21`: the 21-bit jump offset is sign-extended
with bit 20 as the sign bit. -/
def sign_extend_21_spec (v : Nat) : Nat :=
  if v &&& 1048576 ≠ 0 then v ||| 4292870144 else v

/-- The instruction executed at `p` is neither a jump (JAL/JALR) nor a
taken branch, nor AUIPC (whose executor also rewrites the pc); for a
branch this requires the branch condition to be false at `p`. -/
def no_jump (p : Processor) : Instruction → Prop
  | .jal _ => False
  | .jalr _ => False
  | .auipc _ => False
  | .beq a => ¬(read_reg p a.rs1 = read_reg p a.rs2)
  | .bne a => ¬(read_reg p a.rs1 ≠ read_reg p a.rs2)
  | .blt a => ¬(toSigned (read_reg p a.rs1) < toSigned (read_reg p a.rs2))
  | .bge a => ¬(toSigned (read_reg p a.rs2) ≤ toSigned (read_reg p a.rs1))
  | .bltu a => ¬(read_reg p a.rs1 < read_reg p a.rs2)
  | .bgeu a => ¬(read_reg p a.rs2 ≤ read_reg p a.rs1)
  | _ => True

/-- A processor whose memory holds the single instruction
`auipc x1, 0x1` (word `0x00001097`, stored big-endian). -/
def auipc_state : Processor := Processor.new [0, 0, 16, 151]

/-- A processor whose memory holds the single instruction
`addi x1, x0, 1` (word `0x00100093`, stored big-endian). -/
def addi_state : Processor := Processor.new [0, 16, 0, 147]

/-- A processor whose memory holds the single instruction
`jal x1, 2` (word `0x002000EF`, stored big-endian); the jump target
`pc + 2` is misaligned. -/
def jal_mis_state : Processor := Processor.new [0, 32, 0, 239]

/-- A zeroed processor with empty memory, used for executor-level
counterexamples. -/
def zero_state : Processor := Processor.new []

/-- A processor with `x1 = 1` and `x2 = 32`, for the shift-amount claim. -/
def shift_state : Processor := write_reg (write_reg (Processor.new []) 1 1) 2 32

/-- A zeroed processor running in user mode (for CSR privilege checks). -/
def user_state : Processor := { Processor.new [] with mode := .user }

/-- The opcode/funct3/funct7 combinations on which the two
`panic!("Invalid instruction")` arms of `decode` fire: opcode `0110011`,
funct3 `000` or `101`, funct7 neither `0000000` nor `0100000`. -/
abbrev panic_combo (w : Nat) : Prop :=
  get_bits w 0 7 = 51 ∧ (get_bits w 12 15 = 0 ∨ get_bits w 12 15 = 5) ∧
    get_bits w 25 32 ≠ 0 ∧ get_bits w 25 32 ≠ 32

/-- The opcode/funct3/funct7 combinations that `decode`'s dispatch table
(decode.rs) recognizes, i.e. those it maps to a decoded instruction (for
opcode `1100111` possibly to the decode-time misalignment trap).  Note the
table is laxer than the ISA: funct7 is only inspected for ADD/SUB,
SRL/SRA and SRLI/SRAI, and opcode `1100111` (JALR) accepts any funct3. -/
abbrev recognized_combo (w : Nat) : Prop :=
  (get_bits w 0 7 = 51 ∧
    ((get_bits w 12 15 = 0 ∧ (get_bits w 25 32 = 0 ∨ get_bits w 25 32 = 32)) ∨
     get_bits w 12 15 = 1 ∨ get_bits w 12 15 = 2 ∨ get_bits w 12 15 = 3 ∨
     get_bits w 12 15 = 4 ∨
     (get_bits w 12 15 = 5 ∧ (get_bits w 25 32 = 0 ∨ get_bits w 25 32 = 32)) ∨
     get_bits w 12 15 = 6 ∨ get_bits w 12 15 = 7)) ∨
  get_bits w 0 7 = 103 ∨
  (get_bits w 0 7 = 19 ∧
    (get_bits w 12 15 = 0 ∨ get_bits w 12 15 = 1 ∨ get_bits w 12 15 = 2 ∨
     get_bits w 12 15 = 3 ∨ get_bits w 12 15 = 4 ∨
     (get_bits w 12 15 = 5 ∧ (get_bits w 25 32 = 0 ∨ get_bits w 25 32 = 32)) ∨
     get_bits w 12 15 = 6 ∨ get_bits w 12 15 = 7)) ∨
  (get_bits w 0 7 = 3 ∧
    (get_bits w 12 15 = 0 ∨ get_bits w 12 15 = 1 ∨ get_bits w 12 15 = 2 ∨
     get_bits w 12 15 = 4 ∨ get_bits w 12 15 = 5)) ∨
  (get_bits w 0 7 = 115 ∧
    (get_bits w 12 15 = 1 ∨ get_bits w 12 15 = 2 ∨ get_bits w 12 15 = 3 ∨
     get_bits w 12 15 = 5 ∨ get_bits w 12 15 = 6 ∨ get_bits w 12 15 = 7)) ∨
  (get_bits w 0 7 = 35 ∧
    (get_bits w 12 15 = 0 ∨ get_bits w 12 15 = 1 ∨ get_bits w 12 15 = 2)) ∨
  (get_bits w 0 7 = 99 ∧
    (get_bits w 12 15 = 0 ∨ get_bits w 12 15 = 1 ∨ get_bits w 12 15 = 4 ∨
     get_bits w 12 15 = 5 ∨ get_bits w 12 15 = 6 ∨ get_bits w 12 15 = 7)) ∨
  get_bits w 0 7 = 111 ∨ get_bits w 0 7 = 55 ∨ get_bits w 0 7 = 23


/-! Sanity checks mirroring the repository's own unit tests. -/

example : read_reg (inst_add (write_reg (write_reg (Processor.new []) 1 2147483647)
    2 32767) ⟨3, 1, 2⟩) 3 = 2147516414 := by decide

example : read_reg (inst_sub (write_reg (write_reg (Processor.new []) 1 3)
    2 7) ⟨3, 1, 2⟩) 3 = 4294967292 := by decide

example : reg_of (inst_sra (write_reg (write_reg (Processor.new []) 1 2147483648)
    2 4) ⟨3, 1, 2⟩) 3 = some 4160749568 := by decide

example : reg_of (inst_srl (write_reg (write_reg (Processor.new []) 1 2147483648)
    2 4) ⟨3, 1, 2⟩) 3 = some 134217728 := by decide

example : read_reg (inst_slt (write_reg (write_reg (Processor.new []) 1 4294967295)
    2 32767) ⟨3, 1, 2⟩) 3 = 1 := by decide

example : read_reg (inst_sltu (write_reg (write_reg (Processor.new []) 1 4294967295)
    2 32767) ⟨3, 1, 2⟩) 3 = 0 := by decide

example : decode 0b00000000010101001000000010110011 = .ok (.add ⟨1, 9, 5⟩) := by decide

example : decode 0b01000001010100110000000100110011 = .ok (.sub ⟨2, 6, 21⟩) := by decide

example : decode 0b11111111110111111111000011101111 =
    .ok (.jal ⟨1, 0b111111111111111111100⟩) := by decide

example : decode 0b00000000010000000000000001101111 = .ok (.jal ⟨0, 4⟩) := by decide

example : decode 0b10011000010001011010000010110111 = .ok (.lui ⟨1, 2554699776⟩) := by decide

example : decode 0b00000100000101001000000011100111 = .trap .instructionAddressMisaligned := by
  decide

example : pc_of (inst_jalr (write_reg { Processor.new [] with pc := 4660 } 1 1383)
    ⟨2, 1, 273⟩) = some 1656 := by decide

example : reg_of (inst_jalr (write_reg { Processor.new [] with pc := 4660 } 1 1383)
    ⟨2, 1, 273⟩) 2 = some 4664 := by decide

example : reg_of (inst_lb { Processor.new [0, 0, 0, 0, 128, 128, 8, 8] with
    regs := fun j => if j = 1 then 4 else 0 } ⟨2, 1, 0⟩) 2 = some 4294967168 := by decide

example : reg_of (inst_lw { Processor.new [0, 0, 0, 0, 128, 128, 8, 8] with
    regs := fun j => if j = 1 then 4 else 0 } ⟨2, 1, 0⟩) 2 = some 134774912 := by decide

example : reg_of (inst_lhu { Processor.new [0, 0, 0, 0, 128, 128, 8, 8] with
    regs := fun j => if j = 1 then 4 else 0 } ⟨2, 1, 0⟩) 2 = some 32896 := by decide

example : Csr.write Csr.new 3840 1 .machine = .ok Csr.new := by rfl

example : Csr.read Csr.new 768 .user = .error .illegalInstruction := by rfl

example : Csr.read Csr.new 768 .supervisor = .error .illegalInstruction := by rfl

example : trap_of (inst_beq (write_reg (write_reg (Processor.new []) 1 42) 2 42)
    ⟨1, 2, 129⟩) = some .instructionAddressMisaligned := by decide

example : pc_of (inst_beq (write_reg (write_reg (Processor.new []) 1 42) 2 42)
    ⟨1, 2, 128⟩) = some 128 := by decide

example : pc_of (inst_jal { Processor.new [] with pc := 4 } ⟨1, 128⟩) = some 132 := by decide

example : reg_of (inst_jal { Processor.new [] with pc := 4 } ⟨1, 128⟩) 1 = some 8 := by decide

example : pc_of (inst_jal { Processor.new [] with pc := 132 } ⟨1, 4294967292⟩) =
    some 128 := by decide

example : trap_of (tick (Processor.new [])) = some .instructionAccessFault := by decide

example : pc_of (tick addi_state) = some 4 := by decide

example : reg_of (tick addi_state) 1 = some 1 := by decide

/-! Helper lemmas. -/

@[simp] theorem write_reg_pc (p : Processor) (i v : Nat) : (write_reg p i v).pc = p.pc := by
  unfold write_reg; split <;> rfl

@[simp] theorem write_reg_has_jumped (p : Processor) (i v : Nat) :
    (write_reg p i v).has_jumped = p.has_jumped := by
  unfold write_reg; split <;> rfl

@[simp] theorem write_reg_csr (p : Processor) (i v : Nat) :
    (write_reg p i v).csr = p.csr := by
  unfold write_reg; split <;> rfl

@[simp] theorem write_reg_mem (p : Processor) (i v : Nat) :
    (write_reg p i v).mem = p.mem := by
  unfold write_reg; split <;> rfl

@[simp] theorem write_reg_mode (p : Processor) (i v : Nat) :
    (write_reg p i v).mode = p.mode := by
  unfold write_reg; split <;> rfl

/-- An instruction that is neither a jump nor a taken branch nor AUIPC
leaves the pc and the jumped flag untouched. -/
theorem exec_no_jump_preserves (p : Processor) (i : Instruction) (q : Processor)
    (hni : no_jump p i) (he : exec i p = .ok q) :
    q.pc = p.pc ∧ q.has_jumped = p.has_jumped := by
  cases i with
  | add a => simp only [exec] at he; injection he with h; subst h; simp [inst_add]
  | sub a => simp only [exec] at he; injection he with h; subst h; simp [inst_sub]
  | sll a =>
      simp only [exec, inst_sll] at he; split at he
      · exact Outcome.noConfusion he
      · injection he with h; subst h; simp
  | slt a => simp only [exec] at he; injection he with h; subst h; simp [inst_slt]
  | sltu a => simp only [exec] at he; injection he with h; subst h; simp [inst_sltu]
  | xor a => simp only [exec] at he; injection he with h; subst h; simp [inst_xor]
  | srl a =>
      simp only [exec, inst_srl] at he; split at he
      · exact Outcome.noConfusion he
      · injection he with h; subst h; simp
  | sra a =>
      simp only [exec, inst_sra] at he; split at he
      · exact Outcome.noConfusion he
      · injection he with h; subst h; simp
  | or a => simp only [exec] at he; injection he with h; subst h; simp [inst_or]
  | and a => simp only [exec] at he; injection he with h; subst h; simp [inst_and]
  | jalr a => exact hni.elim
  | addi a => simp only [exec] at he; injection he with h; subst h; simp [inst_addi]
  | slli a => simp only [exec] at he; injection he with h; subst h; simp [inst_slli]
  | slti a => simp only [exec] at he; injection he with h; subst h; simp [inst_slti]
  | sltiu a => simp only [exec] at he; injection he with h; subst h; simp [inst_sltiu]
  | xori a => simp only [exec] at he; injection he with h; subst h; simp [inst_xori]
  | srli a => simp only [exec] at he; injection he with h; subst h; simp [inst_srli]
  | srai a => simp only [exec] at he; injection he with h; subst h; simp [inst_srai]
  | ori a => simp only [exec] at he; injection he with h; subst h; simp [inst_ori]
  | andi a => simp only [exec] at he; injection he with h; subst h; simp [inst_andi]
  | lb a =>
      simp only [exec, inst_lb] at he; split at he
      · exact Outcome.noConfusion he
      · injection he with h; subst h; simp
  | lh a =>
      simp only [exec, inst_lh] at he; split at he
      · exact Outcome.noConfusion he
      · injection he with h; subst h; simp
  | lw a =>
      simp only [exec, inst_lw] at he; split at he
      · exact Outcome.noConfusion he
      · injection he with h; subst h; simp
  | lbu a =>
      simp only [exec, inst_lbu] at he; split at he
      · exact Outcome.noConfusion he
      · injection he with h; subst h; simp
  | lhu a =>
      simp only [exec, inst_lhu] at he; split at he
      · exact Outcome.noConfusion he
      · injection he with h; subst h; simp
  | csrrw a =>
      simp only [exec, inst_csrrw] at he; split at he
      · exact Outcome.noConfusion he
      · split at he
        · exact Outcome.noConfusion he
        · injection he with h; subst h; simp
  | csrrs a =>
      simp only [exec, inst_csrrs] at he; split at he
      · exact Outcome.noConfusion he
      · split at he
        · exact Outcome.noConfusion he
        · injection he with h; subst h; simp
  | csrrc a =>
      simp only [exec, inst_csrrc] at he; split at he
      · exact Outcome.noConfusion he
      · split at he
        · exact Outcome.noConfusion he
        · injection he with h; subst h; simp
  | csrrwi a =>
      simp only [exec, inst_csrrwi] at he; split at he
      · exact Outcome.noConfusion he
      · split at he
        · exact Outcome.noConfusion he
        · injection he with h; subst h; simp
  | csrrsi a =>
      simp only [exec, inst_csrrsi] at he; split at he
      · exact Outcome.noConfusion he
      · split at he
        · exact Outcome.noConfusion he
        · injection he with h; subst h; simp
  | csrrci a =>
      simp only [exec, inst_csrrci] at he; split at he
      · exact Outcome.noConfusion he
      · split at he
        · exact Outcome.noConfusion he
        · injection he with h; subst h; simp
  | sb a =>
      simp only [exec, inst_sb] at he; split at he
      · exact Outcome.noConfusion he
      · injection he with h; subst h; exact ⟨rfl, rfl⟩
  | sh a =>
      simp only [exec, inst_sh] at he; split at he
      · exact Outcome.noConfusion he
      · injection he with h; subst h; exact ⟨rfl, rfl⟩
  | sw a =>
      simp only [exec, inst_sw] at he; split at he
      · exact Outcome.noConfusion he
      · injection he with h; subst h; exact ⟨rfl, rfl⟩
  | beq a =>
      simp only [exec, inst_beq, branch_inner] at he
      rw [if_neg hni] at he
      injection he with h; subst h; exact ⟨rfl, rfl⟩
  | bne a =>
      simp only [exec, inst_bne, branch_inner] at he
      rw [if_neg hni] at he
      injection he with h; subst h; exact ⟨rfl, rfl⟩
  | blt a =>
      simp only [exec, inst_blt, branch_inner] at he
      rw [if_neg hni] at he
      injection he with h; subst h; exact ⟨rfl, rfl⟩
  | bge a =>
      simp only [exec, inst_bge, branch_inner] at he
      rw [if_neg hni] at he
      injection he with h; subst h; exact ⟨rfl, rfl⟩
  | bltu a =>
      simp only [exec, inst_bltu, branch_inner] at he
      rw [if_neg hni] at he
      injection he with h; subst h; exact ⟨rfl, rfl⟩
  | bgeu a =>
      simp only [exec, inst_bgeu, branch_inner] at he
      rw [if_neg hni] at he
      injection he with h; subst h; exact ⟨rfl, rfl⟩
  | jal a => exact hni.elim
  | lui a => simp only [exec] at he; injection he with h; subst h; simp [inst_lui]
  | auipc a => exact hni.elim

/-! Claim theorems. -/

/-- C1 (counterexample): a tick that executes `auipc x1, 0x1` — an
instruction that is neither a taken branch nor a jump — ends with
`pc = 0x1000004`, not `pc + 4 = 4`: `inst_auipc` also rewrites the pc. -/
theorem c1_auipc_counterexample :
    decode 4247 = .ok (.auipc ⟨1, 4096⟩) ∧
    is_ok (tick auipc_state) = true ∧
    pc_of (tick auipc_state) = some 16777220 ∧
    pc_of (tick auipc_state) ≠ some (w32 (auipc_state.pc + 4)) := by
  refine ⟨by decide, by decide, by decide, by decide⟩

/-- C1 (amended): for every tick that executes an instruction which is
neither a taken branch, nor a jump (JAL/JALR), nor AUIPC, the pc after the
tick equals the pc before plus 4, modulo `2^32`; this covers LUI, all ALU,
load, store and CSR instructions and untaken branches. -/
theorem c1_pc_advance (p q : Processor) (w : Nat) (i : Instruction)
    (hj : p.has_jumped = false)
    (hw : read_inst p.mem p.pc = some w)
    (hd : decode w = .ok i)
    (hni : no_jump p i)
    (ht : tick p = .ok q) :
    q.pc = w32 (p.pc + 4) := by
  unfold tick at ht
  split at ht
  · exact Outcome.noConfusion ht
  · split at ht
    next heq => rw [hw] at heq; exact Option.noConfusion heq
    next w2 heq =>
      rw [hw] at heq
      injection heq with hww
      subst hww
      split at ht
      next e heqd => rw [hd] at heqd; exact DecodeResult.noConfusion heqd
      next heqd => rw [hd] at heqd; exact DecodeResult.noConfusion heqd
      next i2 heqd =>
        rw [hd] at heqd
        injection heqd with hii
        subst hii
        split at ht
        next heqe => exact Outcome.noConfusion ht
        next q2 e heqe => exact Outcome.noConfusion ht
        next q2 heqe =>
          injection ht with h
          subst h
          obtain ⟨hpc, hjj⟩ := exec_no_jump_preserves p i q2 hni heqe
          unfold post_tick
          rw [hjj, hj]
          simp [hpc]

/-- C1 (witness): a tick executing `addi x1, x0, 1` advances the pc from 0
to 4. -/
theorem c1_pc_advance_witness : ∃ q, tick addi_state = .ok q ∧ q.pc = 4 := by
  refine ⟨_, rfl, ?_⟩
  have h := c1_pc_advance addi_state _ 1048723 (.addi ⟨1, 0, 1⟩)
    rfl rfl (by decide) trivial rfl
  exact h.trans (by decide)

/-- C2: a taken `BEQ` with the 13-bit immediate `0x1000` (bit 12 — the
spec's sign bit — set, bit 11 clear, a multiple of 4) jumps *forward* to
`pc + 0x1000`: `branch_inner` sign-extends with `sign_extend`, which tests
bit 11, so the claimed target `pc + sign_extend_13(imm) = 0xFFFFF000`
— a backward jump — is not what the code computes. -/
theorem c2_branch_sign_extension_bug :
    pc_of (inst_beq zero_state ⟨0, 0, 4096⟩) = some 4096 ∧
    trap_of (inst_beq zero_state ⟨0, 0, 4096⟩) = none ∧
    w32 (zero_state.pc + sign_extend_13_spec 4096) = 4294963200 ∧
    pc_of (inst_beq zero_state ⟨0, 0, 4096⟩) ≠
      some (w32 (zero_state.pc + sign_extend_13_spec 4096)) := by
  refine ⟨by decide, by decide, by decide, by decide⟩

/-- C3: `JAL x1` with the 21-bit immediate `0x80000` (bit 20 — the spec's
sign bit — clear, bit 19 set) should be a forward jump to
`pc + 0x80000`, but `sign_extend_20bit` tests the mask `0xfff80000`, so
the code treats the offset as negative and lands at `0xFFF80000`. -/
theorem c3_jal_sign_extension_bug :
    pc_of (inst_jal zero_state ⟨1, 524288⟩) = some 4294443008 ∧
    reg_of (inst_jal zero_state ⟨1, 524288⟩) 1 = some 4 ∧
    trap_of (inst_jal zero_state ⟨1, 524288⟩) = none ∧
    sign_extend_21_spec 524288 = 524288 ∧
    pc_of (inst_jal zero_state ⟨1, 524288⟩) ≠
      some (w32 (zero_state.pc + sign_extend_21_spec 524288)) := by
  refine ⟨by decide, by decide, by decide, by decide, by decide⟩

/-- C5: a tick executing `jal x1, 2` (misaligned target `pc + 2`) returns
`InstructionAddressMisaligned`, and the pc, CSR file and memory are
unchanged — but `x1` has already been overwritten with `pc + 4 = 4`
(it was 0 before), because `inst_jal` writes `rd` before the alignment
check. -/
theorem c5_jal_misaligned_writes_rd :
    trap_of (tick jal_mis_state) = some .instructionAddressMisaligned ∧
    read_reg jal_mis_state 1 = 0 ∧
    reg_of (tick jal_mis_state) 1 = some 4 ∧
    pc_of (tick jal_mis_state) = some 0 := by
  refine ⟨by decide, by decide, by decide, by decide⟩

/-- C6: `SLL`, `SRL` and `SRA` with `rs2 = 32` are an arithmetic-overflow
abort (`fatal`): the source shifts by the full `rs2` without masking its
low 5 bits, while the claim expects `rd = rs1 << (rs2 % 32) = 1` and no
failure. -/
theorem c6_shift_unmasked_bug :
    inst_sll shift_state ⟨3, 1, 2⟩ = .fatal ∧
    inst_srl shift_state ⟨3, 1, 2⟩ = .fatal ∧
    inst_sra shift_state ⟨3, 1, 2⟩ = .fatal ∧
    read_reg shift_state 2 % 32 = 0 ∧
    w32 (read_reg shift_state 1 <<< (read_reg shift_state 2 % 32)) = 1 := by
  refine ⟨rfl, rfl, rfl, by decide, by decide⟩

/-- C7: a CSR write to a valid address whose bits [11:10] are `0b11`
(read-only) at a mode whose numeric code is at least the address's
bits [9:8] succeeds without changing the CSR file at all — `Csr.write`
returns the file unchanged. -/
theorem c7_readonly_csr_write_noop (c : Csr) (addr v : Nat) (mo : Mode)
    (h1 : addr < 4096) (h2 : get_bits addr 10 12 = 3)
    (h3 : get_bits addr 8 10 ≤ mode_code mo) :
    Csr.write c addr v mo = .ok c := by
  unfold Csr.write
  rw [if_neg (by omega), if_neg (by omega), if_pos h2]

/-- C7 (witness): writing `0xF00` (machine-level read-only) in machine
mode succeeds and leaves the file untouched. -/
theorem c7_readonly_csr_write_noop_witness :
    Csr.write Csr.new 3840 7 .machine = .ok Csr.new :=
  c7_readonly_csr_write_noop Csr.new 3840 7 .machine (by decide) (by decide) (by decide)

/-- C8: in every processor state reachable from `Processor::new` by
`set_pc`, `load` and `tick`, register 0 reads as zero, and a write to
register 0 is discarded: every later register read sees the same values. -/
theorem c8_x0_hardwired_zero (p : Processor) (h : Reach p) :
    read_reg p 0 = 0 ∧ ∀ v i, read_reg (write_reg p 0 v) i = read_reg p i :=
  ⟨rfl, fun _ _ => rfl⟩

/-- C8 (witness): instantiated at the freshly constructed processor. -/
theorem c8_x0_hardwired_zero_witness :
    read_reg (Processor.new []) 0 = 0 ∧
    read_reg (write_reg (Processor.new []) 0 7) 5 = read_reg (Processor.new []) 5 := by
  have h := c8_x0_hardwired_zero (Processor.new []) (Reach.init [])
  exact ⟨h.1, h.2 7 5⟩

/-- A successful CSR read guarantees that a CSR write at the same address
and mode also succeeds: both apply exactly the same address and privilege
checks. -/
theorem csr_read_ok_then_write_ok (c : Csr) (addr v x : Nat) (mo : Mode)
    (hr : Csr.read c addr mo = .ok x) : ∃ c2, Csr.write c addr v mo = .ok c2 := by
  unfold Csr.read at hr
  unfold Csr.write
  split at hr
  · exact Except.noConfusion hr
  · split at hr
    · exact Except.noConfusion hr
    · next h1 h2 =>
        rw [if_neg h1, if_neg h2]
        by_cases h3 : get_bits addr 10 12 = 3
        · exact ⟨c, by rw [if_pos h3]⟩
        · exact ⟨_, by rw [if_neg h3]⟩


/-- C10: for every CSR instruction, a successful CSR read at the
instruction's address and mode guarantees that the subsequent CSR write at
the same address and mode succeeds; consequently, whenever a CSR executor
traps, the trap is the one produced by the read, and the processor state
(general registers and CSR file included) is exactly the pre-instruction
state. -/
theorem c10_csr_read_write_agreement :
    (∀ (c : Csr) (addr v x : Nat) (mo : Mode),
        Csr.read c addr mo = .ok x → ∃ c2, Csr.write c addr v mo = .ok c2) ∧
    (∀ (p q : Processor) (a : IType) (e : Exception),
        (inst_csrrw p a = .trap q e ∨ inst_csrrs p a = .trap q e ∨
         inst_csrrc p a = .trap q e ∨ inst_csrrwi p a = .trap q e ∨
         inst_csrrsi p a = .trap q e ∨ inst_csrrci p a = .trap q e) →
        q = p ∧ Csr.read p.csr a.imm p.mode = .error e) := by
  constructor
  · exact fun c addr v x mo hr => csr_read_ok_then_write_ok c addr v x mo hr
  · intro p q a e h
    rcases h with h | h | h | h | h | h
    · unfold inst_csrrw at h
      cases hr : Csr.read p.csr a.imm p.mode with
      | error e0 =>
          simp only [hr] at h
          injection h with h1 h2
          exact ⟨h1.symm, by rw [h2]⟩
      | ok old =>
          simp only [hr] at h
          obtain ⟨c2, hw⟩ := csr_read_ok_then_write_ok p.csr a.imm
            (read_reg (write_reg p a.rd old) a.rs1) old p.mode hr
          simp only [write_reg_csr, write_reg_mode, hw] at h
          exact Outcome.noConfusion h
    · unfold inst_csrrs at h
      cases hr : Csr.read p.csr a.imm p.mode with
      | error e0 =>
          simp only [hr] at h
          injection h with h1 h2
          exact ⟨h1.symm, by rw [h2]⟩
      | ok old =>
          simp only [hr] at h
          obtain ⟨c2, hw⟩ := csr_read_ok_then_write_ok p.csr a.imm
            (old ||| read_reg (write_reg p a.rd old) a.rs1) old p.mode hr
          simp only [write_reg_csr, write_reg_mode, hw] at h
          exact Outcome.noConfusion h
    · unfold inst_csrrc at h
      cases hr : Csr.read p.csr a.imm p.mode with
      | error e0 =>
          simp only [hr] at h
          injection h with h1 h2
          exact ⟨h1.symm, by rw [h2]⟩
      | ok old =>
          simp only [hr] at h
          obtain ⟨c2, hw⟩ := csr_read_ok_then_write_ok p.csr a.imm
            (old &&& not32 (read_reg (write_reg p a.rd old) a.rs1)) old p.mode hr
          simp only [write_reg_csr, write_reg_mode, hw] at h
          exact Outcome.noConfusion h
    · unfold inst_csrrwi at h
      cases hr : Csr.read p.csr a.imm p.mode with
      | error e0 =>
          simp only [hr] at h
          injection h with h1 h2
          exact ⟨h1.symm, by rw [h2]⟩
      | ok old =>
          simp only [hr] at h
          obtain ⟨c2, hw⟩ := csr_read_ok_then_write_ok p.csr a.imm a.rs1 old p.mode hr
          simp only [write_reg_csr, write_reg_mode, hw] at h
          exact Outcome.noConfusion h
    · unfold inst_csrrsi at h
      cases hr : Csr.read p.csr a.imm p.mode with
      | error e0 =>
          simp only [hr] at h
          injection h with h1 h2
          exact ⟨h1.symm, by rw [h2]⟩
      | ok old =>
          simp only [hr] at h
          obtain ⟨c2, hw⟩ := csr_read_ok_then_write_ok p.csr a.imm (old ||| a.rs1)
            old p.mode hr
          simp only [write_reg_csr, write_reg_mode, hw] at h
          exact Outcome.noConfusion h
    · unfold inst_csrrci at h
      cases hr : Csr.read p.csr a.imm p.mode with
      | error e0 =>
          simp only [hr] at h
          injection h with h1 h2
          exact ⟨h1.symm, by rw [h2]⟩
      | ok old =>
          simp only [hr] at h
          obtain ⟨c2, hw⟩ := csr_read_ok_then_write_ok p.csr a.imm
            (old &&& not32 a.rs1) old p.mode hr
          simp only [write_reg_csr, write_reg_mode, hw] at h
          exact Outcome.noConfusion h

/-- C10 (witness): reading `0x005` in user mode succeeds, so the write
does too; and `csrrw` of the machine-only address `0x300` in user mode
traps with `IllegalInstruction`, leaving the state untouched. -/
theorem c10_csr_read_write_agreement_witness :
    (∃ c2, Csr.write Csr.new 5 1 .user = .ok c2) ∧
    (user_state = user_state ∧
      Csr.read user_state.csr 768 user_state.mode = .error .illegalInstruction) := by
  constructor
  · exact c10_csr_read_write_agreement.1 Csr.new 5 1 0 .user rfl
  · exact c10_csr_read_write_agreement.2 user_state user_state ⟨1, 2, 768⟩
      .illegalInstruction (Or.inl rfl)

/-- C4 (counterexample): the word `0x02000033` (opcode `0110011`, funct3
`000`, funct7 `0000001`) makes `decode` panic instead of returning the
`IllegalInstruction` trap the claim promises. -/
theorem c4_decode_panic_counterexample :
    decode 33554483 = .fatal ∧ decode 33554483 ≠ .trap .illegalInstruction := by
  refine ⟨by decide, by decide⟩

set_option maxHeartbeats 12800000 in
/-- C4 (amended): `decode` is total; every word whose opcode/funct3/funct7
combination is outside the decoder's dispatch table (`recognized_combo`)
decodes to the `IllegalInstruction` trap, *except* on the two panic arms —
opcode `0110011`, funct3 `000` or `101`, funct7 outside
`{0000000, 0100000}` (`panic_combo`) — where `decode` panics (`fatal`)
instead of trapping; and those panic arms are exactly the words on which
`decode` fails. -/
theorem c4_decode_panic_characterization (w : Nat) :
    (decode w = .fatal ↔ panic_combo w) ∧
    (¬ recognized_combo w → ¬ panic_combo w →
      decode w = .trap .illegalInstruction) := by
  unfold decode
  by_cases hop : get_bits w 0 7 = 51
  · rw [if_pos hop]
    split_ifs <;> simp [recognized_combo, panic_combo, hop, *]
  · rw [if_neg hop]
    by_cases ho2 : get_bits w 0 7 = 103
    · rw [if_pos ho2]
      split_ifs <;> simp [recognized_combo, panic_combo, hop, ho2]
    · rw [if_neg ho2]
      by_cases ho3 : get_bits w 0 7 = 19
      · rw [if_pos ho3]
        split_ifs <;> simp [recognized_combo, panic_combo, hop, ho2, ho3, *]
      · rw [if_neg ho3]
        by_cases ho4 : get_bits w 0 7 = 3
        · rw [if_pos ho4]
          split_ifs <;> simp [recognized_combo, panic_combo, hop, ho2, ho3, ho4, *]
        · rw [if_neg ho4]
          by_cases ho5 : get_bits w 0 7 = 115
          · rw [if_pos ho5]
            split_ifs <;>
              simp [recognized_combo, panic_combo, hop, ho2, ho3, ho4, ho5, *]
          · rw [if_neg ho5]
            by_cases ho6 : get_bits w 0 7 = 35
            · rw [if_pos ho6]
              split_ifs <;>
                simp [recognized_combo, panic_combo, hop, ho2, ho3, ho4, ho5, ho6, *]
            · rw [if_neg ho6]
              by_cases ho7 : get_bits w 0 7 = 99
              · rw [if_pos ho7]
                split_ifs <;>
                  simp [recognized_combo, panic_combo, hop, ho2, ho3, ho4, ho5, ho6,
                    ho7, *]
              · rw [if_neg ho7]
                by_cases ho8 : get_bits w 0 7 = 111
                · rw [if_pos ho8]
                  simp [recognized_combo, panic_combo, hop, ho8]
                · rw [if_neg ho8]
                  by_cases ho9 : get_bits w 0 7 = 55
                  · rw [if_pos ho9]
                    simp [recognized_combo, panic_combo, hop, ho9]
                  · rw [if_neg ho9]
                    by_cases ho10 : get_bits w 0 7 = 23
                    · rw [if_pos ho10]
                      simp [recognized_combo, panic_combo, hop, ho10]
                    · rw [if_neg ho10]
                      simp [recognized_combo, panic_combo, hop, ho2, ho3, ho4, ho5,
                        ho6, ho7, ho8, ho9, ho10]

/-- C4 (amended, witness): the all-zero word (opcode `0000000`) is outside
the dispatch table and decodes to `IllegalInstruction`; the word
`0x02000033` is a panic combination and `decode` goes fatal on it. -/
theorem c4_decode_panic_characterization_witness :
    decode 0 = .trap .illegalInstruction ∧ decode 33554483 = .fatal :=
  ⟨(c4_decode_panic_characterization 0).2 (by decide) (by decide),
   (c4_decode_panic_characterization 33554483).1.mpr (by decide)⟩

theorem pow8 : (2 : Nat) ^ 8 = 256 := by norm_num

theorem pow16 : (2 : Nat) ^ 16 = 65536 := by norm_num

theorem pow24 : (2 : Nat) ^ 24 = 16777216 := by norm_num

/-- Disjoint bitwise-or is addition: a multiple of `2^k` or-ed with a value
below `2^k`. -/
theorem lor_add_of_mod (k x y : Nat) (hx : x % 2 ^ k = 0) (hy : y < 2 ^ k) :
    x ||| y = x + y := by
  obtain ⟨z, hz⟩ := Nat.dvd_of_mod_eq_zero hx
  subst hz
  exact (Nat.mul_add_lt_is_or hy z).symm

/-- Disjoint bitwise-or is addition (small value on the left). -/
theorem lor_add_of_mod' (k x y : Nat) (hx : x < 2 ^ k) (hy : y % 2 ^ k = 0) :
    x ||| y = x + y := by
  rw [Nat.lor_comm, lor_add_of_mod k y x hy hx, Nat.add_comm]

/-- Little-endian halfword recomposition. -/
theorem lh_recompose (v : Nat) (hv : v < 65536) :
    v % 256 ||| (v >>> 8 % 256) <<< 8 = v := by
  rw [lor_add_of_mod' 8 (v % 256) ((v >>> 8 % 256) <<< 8)
      (by rw [pow8]; omega)
      (by rw [Nat.shiftLeft_eq]; exact Nat.mul_mod_left _ _)]
  rw [Nat.shiftLeft_eq, Nat.shiftRight_eq_div_pow, pow8]
  omega

/-- Little-endian word recomposition. -/
theorem lw_recompose (v : Nat) (hv : v < 4294967296) :
    v % 256 ||| (v >>> 8 % 256) <<< 8 ||| (v >>> 16 % 256) <<< 16 |||
      (v >>> 24 % 256) <<< 24 = v := by
  rw [lor_add_of_mod' 8 (v % 256) ((v >>> 8 % 256) <<< 8)
      (by rw [pow8]; omega)
      (by rw [Nat.shiftLeft_eq]; exact Nat.mul_mod_left _ _)]
  rw [lor_add_of_mod' 16 (v % 256 + (v >>> 8 % 256) <<< 8) ((v >>> 16 % 256) <<< 16)
      (by rw [Nat.shiftLeft_eq, pow8, pow16]; omega)
      (by rw [Nat.shiftLeft_eq]; exact Nat.mul_mod_left _ _)]
  rw [lor_add_of_mod' 24
      (v % 256 + (v >>> 8 % 256) <<< 8 + (v >>> 16 % 256) <<< 16)
      ((v >>> 24 % 256) <<< 24)
      (by rw [Nat.shiftLeft_eq, Nat.shiftLeft_eq, pow8, pow16, pow24]; omega)
      (by rw [Nat.shiftLeft_eq]; exact Nat.mul_mod_left _ _)]
  rw [Nat.shiftLeft_eq, Nat.shiftLeft_eq, Nat.shiftLeft_eq,
      Nat.shiftRight_eq_div_pow, Nat.shiftRight_eq_div_pow, Nat.shiftRight_eq_div_pow,
      pow8, pow16, pow24]
  omega

/-- Big-endian word recomposition. -/
theorem bw_recompose (v : Nat) (hv : v < 4294967296) :
    (v >>> 24 % 256) <<< 24 ||| (v >>> 16 % 256) <<< 16 ||| (v >>> 8 % 256) <<< 8 |||
      v % 256 = v := by
  rw [Nat.lor_assoc, Nat.lor_assoc]
  rw [lor_add_of_mod 8 ((v >>> 8 % 256) <<< 8) (v % 256)
      (by rw [Nat.shiftLeft_eq]; exact Nat.mul_mod_left _ _)
      (by rw [pow8]; omega)]
  rw [lor_add_of_mod 16 ((v >>> 16 % 256) <<< 16) ((v >>> 8 % 256) <<< 8 + v % 256)
      (by rw [Nat.shiftLeft_eq]; exact Nat.mul_mod_left _ _)
      (by rw [Nat.shiftLeft_eq, pow8, pow16]; omega)]
  rw [lor_add_of_mod 24 ((v >>> 24 % 256) <<< 24)
      ((v >>> 16 % 256) <<< 16 + ((v >>> 8 % 256) <<< 8 + v % 256))
      (by rw [Nat.shiftLeft_eq]; exact Nat.mul_mod_left _ _)
      (by rw [Nat.shiftLeft_eq, Nat.shiftLeft_eq, pow8, pow16, pow24]; omega)]
  rw [Nat.shiftLeft_eq, Nat.shiftLeft_eq, Nat.shiftLeft_eq,
      Nat.shiftRight_eq_div_pow, Nat.shiftRight_eq_div_pow, Nat.shiftRight_eq_div_pow,
      pow8, pow16, pow24]
  omega

/-- An in-bounds `write_lh` is two successive byte stores. -/
theorem write_lh_eq (m : List Nat) (a v : Nat) (h : a + 1 < m.length) :
    write_lh m a v = some ((m.set a (v % 256)).set (a + 1) (v >>> 8 % 256)) := by
  unfold write_lh write_lb
  rw [if_pos (show a < m.length by omega), Option.some_bind,
      if_pos (show a + 1 < (m.set a (v % 256)).length by simp; omega)]

/-- An in-bounds `write_lw` is four successive byte stores. -/
theorem write_lw_eq (m : List Nat) (a v : Nat) (h : a + 3 < m.length) :
    write_lw m a v = some ((((m.set a (v % 256)).set (a + 1) (v >>> 8 % 256)).set
      (a + 2) (v >>> 16 % 256)).set (a + 3) (v >>> 24 % 256)) := by
  unfold write_lw write_lb
  rw [if_pos (show a < m.length by omega), Option.some_bind,
      if_pos (show a + 1 < (m.set a (v % 256)).length by simp; omega), Option.some_bind,
      if_pos (show a + 2 <
        ((m.set a (v % 256)).set (a + 1) (v >>> 8 % 256)).length by simp; omega),
      Option.some_bind,
      if_pos (show a + 3 < (((m.set a (v % 256)).set (a + 1) (v >>> 8 % 256)).set
        (a + 2) (v >>> 16 % 256)).length by simp; omega)]

/-- An in-bounds `write_bw` is four successive byte stores (big-endian). -/
theorem write_bw_eq (m : List Nat) (a v : Nat) (h : a + 3 < m.length) :
    write_bw m a v = some ((((m.set a (v >>> 24 % 256)).set (a + 1) (v >>> 16 % 256)).set
      (a + 2) (v >>> 8 % 256)).set (a + 3) (v % 256)) := by
  unfold write_bw write_lb
  rw [if_pos (show a < m.length by omega), Option.some_bind,
      if_pos (show a + 1 < (m.set a (v >>> 24 % 256)).length by simp; omega),
      Option.some_bind,
      if_pos (show a + 2 <
        ((m.set a (v >>> 24 % 256)).set (a + 1) (v >>> 16 % 256)).length by simp; omega),
      Option.some_bind,
      if_pos (show a + 3 < (((m.set a (v >>> 24 % 256)).set (a + 1) (v >>> 16 % 256)).set
        (a + 2) (v >>> 8 % 256)).length by simp; omega)]

/-- Reading back the two bytes written by two byte stores. -/
theorem sets2_getElem (m : List Nat) (a x0 x1 : Nat) (h : a + 1 < m.length) :
    ((m.set a x0).set (a + 1) x1)[a]? = some x0 ∧
    ((m.set a x0).set (a + 1) x1)[a + 1]? = some x1 := by
  constructor
  · rw [List.getElem?_set_ne (show a + 1 ≠ a by omega),
        List.getElem?_set_self (show a < m.length by omega)]
  · rw [List.getElem?_set_self (show a + 1 < (m.set a x0).length by simp; omega)]

/-- Reading back the four bytes written by four byte stores. -/
theorem sets4_getElem (m : List Nat) (a x0 x1 x2 x3 : Nat) (h : a + 3 < m.length) :
    ((((m.set a x0).set (a + 1) x1).set (a + 2) x2).set (a + 3) x3)[a]? = some x0 ∧
    ((((m.set a x0).set (a + 1) x1).set (a + 2) x2).set (a + 3) x3)[a + 1]? = some x1 ∧
    ((((m.set a x0).set (a + 1) x1).set (a + 2) x2).set (a + 3) x3)[a + 2]? = some x2 ∧
    ((((m.set a x0).set (a + 1) x1).set (a + 2) x2).set (a + 3) x3)[a + 3]? = some x3 := by
  refine ⟨?_, ?_, ?_, ?_⟩
  · rw [List.getElem?_set_ne (show a + 3 ≠ a by omega),
        List.getElem?_set_ne (show a + 2 ≠ a by omega),
        List.getElem?_set_ne (show a + 1 ≠ a by omega),
        List.getElem?_set_self (show a < m.length by omega)]
  · rw [List.getElem?_set_ne (show a + 3 ≠ a + 1 by omega),
        List.getElem?_set_ne (show a + 2 ≠ a + 1 by omega),
        List.getElem?_set_self (show a + 1 < (m.set a x0).length by simp; omega)]
  · rw [List.getElem?_set_ne (show a + 3 ≠ a + 2 by omega),
        List.getElem?_set_self
          (show a + 2 < ((m.set a x0).set (a + 1) x1).length by simp; omega)]
  · rw [List.getElem?_set_self
        (show a + 3 < (((m.set a x0).set (a + 1) x1).set (a + 2) x2).length by simp; omega)]

/-- `read_lh` at an address whose two bytes are known. -/
theorem read_lh_of_bytes (L : List Nat) (a b0 b1 : Nat)
    (h0 : L[a]? = some b0) (h1 : L[a + 1]? = some b1) :
    read_lh L a = some (b0 ||| b1 <<< 8) := by
  unfold read_lh
  rw [h0, h1]

/-- `read_lw` at an address whose four bytes are known. -/
theorem read_lw_of_bytes (L : List Nat) (a b0 b1 b2 b3 : Nat)
    (h0 : L[a]? = some b0) (h1 : L[a + 1]? = some b1)
    (h2 : L[a + 2]? = some b2) (h3 : L[a + 3]? = some b3) :
    read_lw L a = some (b0 ||| b1 <<< 8 ||| b2 <<< 16 ||| b3 <<< 24) := by
  unfold read_lw
  rw [h0, h1, h2, h3]

/-- `read_bw` at an address whose four bytes are known. -/
theorem read_bw_of_bytes (L : List Nat) (a b0 b1 b2 b3 : Nat)
    (h0 : L[a]? = some b0) (h1 : L[a + 1]? = some b1)
    (h2 : L[a + 2]? = some b2) (h3 : L[a + 3]? = some b3) :
    read_bw L a = some (b0 <<< 24 ||| b1 <<< 16 ||| b2 <<< 8 ||| b3) := by
  unfold read_bw
  rw [h0, h1, h2, h3]

/-- C9: for the vector-backed memory and every in-bounds address, a write
followed by a read of the same width at the same address returns the value
written: bytes, halfwords and words little-endian, instructions
big-endian. -/
theorem c9_memory_round_trip (m : List Nat) (a : Nat) :
    (∀ v, v < 256 → a < m.length →
      (write_byte m a v).bind (fun m2 => read_byte m2 a) = some v) ∧
    (∀ v, v < 65536 → a + 1 < m.length →
      (write_halfword m a v).bind (fun m2 => read_halfword m2 a) = some v) ∧
    (∀ v, v < 4294967296 → a + 3 < m.length →
      (write_word m a v).bind (fun m2 => read_word m2 a) = some v) ∧
    (∀ v, v < 4294967296 → a + 3 < m.length →
      (write_inst m a v).bind (fun m2 => read_inst m2 a) = some v) := by
  refine ⟨?_, ?_, ?_, ?_⟩
  · intro v hv ha
    unfold write_byte read_byte write_lb read_lb
    rw [if_pos ha, Option.some_bind, List.getElem?_set_self ha]
  · intro v hv ha
    unfold write_halfword read_halfword
    rw [write_lh_eq m a v ha, Option.some_bind]
    obtain ⟨g0, g1⟩ := sets2_getElem m a (v % 256) (v >>> 8 % 256) ha
    rw [read_lh_of_bytes _ a _ _ g0 g1, lh_recompose v hv]
  · intro v hv ha
    unfold write_word read_word
    rw [write_lw_eq m a v ha, Option.some_bind]
    obtain ⟨g0, g1, g2, g3⟩ := sets4_getElem m a (v % 256) (v >>> 8 % 256)
      (v >>> 16 % 256) (v >>> 24 % 256) ha
    rw [read_lw_of_bytes _ a _ _ _ _ g0 g1 g2 g3, lw_recompose v hv]
  · intro v hv ha
    unfold write_inst read_inst
    rw [write_bw_eq m a v ha, Option.some_bind]
    obtain ⟨g0, g1, g2, g3⟩ := sets4_getElem m a (v >>> 24 % 256) (v >>> 16 % 256)
      (v >>> 8 % 256) (v % 256) ha
    rw [read_bw_of_bytes _ a _ _ _ _ g0 g1 g2 g3, bw_recompose v hv]

/-- C9 (witness): concrete round trips at address 2 of an 8-byte memory. -/
theorem c9_memory_round_trip_witness :
    (write_byte [0, 0, 0, 0, 0, 0, 0, 0] 2 171).bind
      (fun m2 => read_byte m2 2) = some 171 ∧
    (write_halfword [0, 0, 0, 0, 0, 0, 0, 0] 2 48879).bind
      (fun m2 => read_halfword m2 2) = some 48879 ∧
    (write_word [0, 0, 0, 0, 0, 0, 0, 0] 2 3735928559).bind
      (fun m2 => read_word m2 2) = some 3735928559 ∧
    (write_inst [0, 0, 0, 0, 0, 0, 0, 0] 2 305419896).bind
      (fun m2 => read_inst m2 2) = some 305419896 :=
  ⟨(c9_memory_round_trip [0, 0, 0, 0, 0, 0, 0, 0] 2).1 171 (by decide) (by decide),
   (c9_memory_round_trip [0, 0, 0, 0, 0, 0, 0, 0] 2).2.1 48879 (by decide) (by decide),
   (c9_memory_round_trip [0, 0, 0, 0, 0, 0, 0, 0] 2).2.2.1 3735928559 (by decide) (by decide),
   (c9_memory_round_trip [0, 0, 0, 0, 0, 0, 0, 0] 2).2.2.2 305419896 (by decide) (by decide)⟩
